import Mathlib

set_option autoImplicit false
set_option maxRecDepth 8000

namespace VastPython

/-!
Shallow embedding of the vast-python client library core
(`src/vastai/api.py`), covering:

* the state poller `Instance._wait_until` (api.py lines 623-658) and its
  wrappers `wait_until_running` / `wait_until_stopped` /
  `wait_until_destroyed`;
* the cache-refresh merge in `VastClient.get_instances`
  (api.py lines 182-195) and its HTTPError retry wrapper
  (api.py lines 162-181);
* the lookup `VastClient.get_instance` (api.py lines 197-210);
* the search-query assembly in `VastClient.search_offers`
  (api.py lines 275-309), whose filter-expression parser `parse_query`
  is imported from `vastai.vast`, a module not present in the snapshot
  and therefore modelled from the specification.

Machine time is modelled discretely: the poll loop's elapsed time is the
number of completed sleeps times the sleep interval; fetches are
instantaneous.  Python exceptions are modelled as `Except` error values
or as explicit result constructors.
-/

/-! ### Python string primitives

Structurally recursive character-list versions of the Python string
operations the source uses (`str.lower`, `str.startswith`, `str.strip`,
`str.split`, `int()` coercion), so that every definition evaluates by
kernel reduction. -/

/-- Python `str.lower()` (ASCII case folding, which is all the source
compares). -/
def pyLower (s : String) : String :=
  String.mk (s.toList.map Char.toLower)

/-- Python `s.startswith(pre)`. -/
def pyStartsWith (s pre : String) : Bool :=
  pre.toList.isPrefixOf s.toList

/-- Python `s.endswith(suf)`. -/
def pyEndsWith (s suf : String) : Bool :=
  suf.toList.reverse.isPrefixOf s.toList.reverse

/-- Python `s.strip()`: whitespace removed from both ends. -/
def pyStrip (s : String) : String :=
  String.mk (((s.toList.dropWhile Char.isWhitespace).reverse.dropWhile
    Char.isWhitespace).reverse)

/-- Worker for `pySplitChar`: `cur` holds the current piece in
reverse. -/
def splitCharGo (sep : Char) : List Char → List Char → List String
  | [], cur => [String.mk cur.reverse]
  | c :: rest, cur =>
    if c = sep then String.mk cur.reverse :: splitCharGo sep rest []
    else splitCharGo sep rest (c :: cur)

/-- Python `s.split(sep)` for a one-character separator (the source only
splits on `","`). -/
def pySplitChar (sep : Char) (s : String) : List String :=
  splitCharGo sep s.toList []

/-- Worker for `pyToInt?`: accumulate decimal digits, failing on a
non-digit. -/
def digitsValGo : List Char → Nat → Option Nat
  | [], acc => some acc
  | c :: rest, acc =>
    if c.isDigit then digitsValGo rest (acc * 10 + (c.toNat - 48)) else none

/-- Python `int(s)` restricted to optionally-signed decimal integers,
`none` when `s` is not numeric-looking. -/
def pyToInt? (s : String) : Option Int :=
  match s.toList with
  | [] => none
  | c :: rest =>
    if c = '-' then
      match rest with
      | [] => none
      | _ => (digitsValGo rest 0).map (fun n => -(n : Int))
    else (digitsValGo (c :: rest) 0).map (fun n => (n : Int))

/-- String join with a separator (Python `sep.join`). -/
def joinSep (sep : String) : List String → String
  | [] => ""
  | [x] => x
  | x :: y :: rest => x ++ sep ++ joinSep sep (y :: rest)

/-- Equality decision for `Except` results, so that concrete runs can be
checked with `decide`. -/
instance exceptDecEq {ε α : Type} [DecidableEq ε] [DecidableEq α] :
    DecidableEq (Except ε α) := fun x y =>
  match x, y with
  | Except.ok a, Except.ok b =>
    if h : a = b then isTrue (by rw [h])
    else isFalse (by intro hc; apply h; injection hc)
  | Except.ok _, Except.error _ => isFalse (by intro hc; injection hc)
  | Except.error _, Except.ok _ => isFalse (by intro hc; injection hc)
  | Except.error e, Except.error f =>
    if h : e = f then isTrue (by rw [h])
    else isFalse (by intro hc; apply h; injection hc)

/-! ### Data model for the poller -/

/-- Target status for a poll, mirroring `_wait_until`'s `target_status`
argument, which the code dispatches on with `type(status) is str` /
`type(status) is list`. -/
inductive PollTarget where
  | str : String → PollTarget
  | list : List String → PollTarget
deriving DecidableEq

/-- Point-in-time view of one instance as refreshed by a fetch: the
`actual_status` field (copied into `Instance.status`) and the
`status_msg` field.  `none` models a Python attribute that is `None`. -/
structure Snapshot where
  id : Nat
  status : Option String
  status_msg : Option String
deriving DecidableEq

/-- Attributes of the `Instance` object that `_check_status` reads
(`self.status`, `self.status_msg`). -/
structure PollState where
  status : Option String
  status_msg : Option String
deriving DecidableEq

/-- Failure-message prefix tested by `_check_status`
(`self.status_msg.startswith("Unhandled setup error")`). -/
def failMsgPrefix : String := "Unhandled setup error"

/-- Truthiness-plus-prefix test from `_check_status` line 625:
`if self.status_msg and self.status_msg.startswith("Unhandled setup error")`.
A `None` or empty message is falsy and skips the check. -/
def msgFails : Option String → Bool
  | none => false
  | some m => !m.toList.isEmpty && pyStartsWith m failMsgPrefix

/-- Embedding of the closure `_check_status` (api.py lines 624-638).
The failure-message test runs first and raises `UnhandledSetupError`
carrying the message (modelled as `Except.error`); then `self.status is
None` yields `False`; a string target compares lowercased statuses; a
list target succeeds when any member matches. -/
def check_status (st : PollState) (target : PollTarget) : Except String Bool :=
  if msgFails st.status_msg then Except.error (st.status_msg.getD "")
  else
    match st.status with
    | none => Except.ok false
    | some cur =>
      match target with
      | PollTarget.str s => Except.ok (pyLower cur == pyLower s)
      | PollTarget.list l => Except.ok (l.any (fun s => pyLower cur == pyLower s))

/-- Python `str()` of the target as interpolated into the timeout
message: a plain string for a string target, `['a', 'b']` rendering for
a list target. -/
def pyStrTarget : PollTarget → String
  | PollTarget.str s => s
  | PollTarget.list l =>
      "[" ++ joinSep ", " (l.map (fun s => "\x27" ++ s ++ "\x27")) ++ "]"

/-- Message of the `TimeoutError` raised at api.py lines 657-658:
`"Checked every %i seconds, but self.status was never in target_status (%s)."
% (check_every_s, str(target_status))`. -/
def timeoutMsg (check_every_s : Nat) (target : PollTarget) : String :=
  "Checked every " ++ toString check_every_s ++
    " seconds, but self.status was never in target_status (" ++
    pyStrTarget target ++ ")."

/-- Outcome of a `_wait_until` call: `found` is the `return inst` paths
(lines 650 is separate), `destroyed` is the bare `return` at line 650,
`unhandledSetup` is the raised `UnhandledSetupError` with its message,
`timeout` is the raised `TimeoutError` with its message. -/
inductive PollResult where
  | found : Option Snapshot → PollResult
  | destroyed : PollResult
  | unhandledSetup : String → PollResult
  | timeout : String → PollResult
deriving DecidableEq

/-- Effect of a fetch on the `Instance` attributes: a successful fetch
overwrites `status`/`status_msg` from the response (via the in-place
merge in `get_instances`); an absent instance leaves them unchanged. -/
def stepState (st : PollState) : Option Snapshot → PollState
  | some snap => ⟨snap.status, snap.status_msg⟩
  | none => st

/-- Loop of `_wait_until` (api.py lines 645-658), fuel-indexed.
Arguments after the configuration: remaining fuel, current `Instance`
attribute state, the last fetch's returned value (`inst`), the number of
fetches performed so far (also the index of the next fetch in the
oracle), and the number of sleeps performed so far.  Elapsed time at a
loop check is `sleeps * check_every_s`.  Returns the poll outcome
together with the total fetch count and sleep count, or `none` when the
fuel runs out before the source loop would have terminated. -/
def wait_until_loop (fetch : Nat → Option Snapshot) (target : PollTarget)
    (check_every_s timeout destroy_return_delay : Nat) :
    Nat → PollState → Option Snapshot → Nat → Nat →
    Option (PollResult × Nat × Nat)
  | 0, _, _, _, _ => none
  | fuel + 1, st, lastInst, fetches, sleeps =>
    match check_status st target with
    | Except.error m => some (PollResult.unhandledSetup m, fetches, sleeps)
    | Except.ok true => some (PollResult.found lastInst, fetches, sleeps)
    | Except.ok false =>
      if sleeps * check_every_s < timeout then
        match fetch fetches with
        | none =>
          if sleeps * check_every_s > destroy_return_delay then
            some (PollResult.destroyed, fetches + 1, sleeps)
          else
            wait_until_loop fetch target check_every_s timeout destroy_return_delay
              fuel st none (fetches + 1) (sleeps + 1)
        | some snap =>
          wait_until_loop fetch target check_every_s timeout destroy_return_delay
            fuel (stepState st (some snap)) (some snap) (fetches + 1) (sleeps + 1)
      else
        some (PollResult.timeout (timeoutMsg check_every_s target), fetches, sleeps)

/-- Embedding of `Instance._wait_until` (api.py lines 623-658).  `fetch k`
is the value of the `k`-th call `client.get_instance(inst_id)` (a
`Snapshot` or `none` for an absent instance); `init` is the `Instance`
attribute state before the initial fetch at line 643.  The initial fetch
happens before the loop; the while condition re-evaluates
`_check_status()` on the refreshed state.  The final
`if _check_status(): return inst` re-check after a timed-out loop is
observationally the `Except.ok true` exit of the loop, since
`_check_status` is deterministic and effect-free on the same state. -/
def wait_until (fetch : Nat → Option Snapshot) (init : PollState) (inst_id : Nat)
    (target : PollTarget) (check_every_s timeout destroy_return_delay fuel : Nat) :
    Option (PollResult × Nat × Nat) :=
  wait_until_loop fetch target check_every_s timeout destroy_return_delay
    fuel (stepState init (fetch 0)) (fetch 0) 1 0

/-- Acceptance condition of the claim language: the snapshot status
equals the target case-insensitively, or equals any member when the
target is a set. -/
def targetAccepts (target : PollTarget) (cur : String) : Prop :=
  match target with
  | PollTarget.str s => pyLower cur = pyLower s
  | PollTarget.list l => ∃ s ∈ l, pyLower cur = pyLower s

/-! ### Client cache: `get_instances` merge and retry, `get_instance` -/

/-- One entry of the `/instances` response as consumed by the merge at
api.py lines 183-193: its `id`, the `actual_status` field copied into
`Instance.status` at line 190 (indexed directly, hence required), and
the `status_msg` field read later by the poller.  Other response fields
are irrelevant to the claims and omitted. -/
structure RespInst where
  id : Nat
  actual_status : String
  status_msg : Option String
deriving DecidableEq

/-- In-memory `Instance` object contents (the attributes the claims
observe). -/
structure InstObj where
  id : Nat
  status : Option String
  status_msg : Option String
deriving DecidableEq, Inhabited

/-- Construction `Instance(self, **instance_latest)` followed by the
`status = actual_status` assignment of `Instance.__init__`
(api.py lines 406-418). -/
def instFromResp (r : RespInst) : InstObj :=
  ⟨r.id, some r.actual_status, r.status_msg⟩

/-- Client cache state: `store` is the heap of `Instance` objects
(object identity = index into `store`, in creation order);
`instanceRefs` is `self.instances` as a list of references into the
heap; `instanceIds` is `self.instance_ids`.  An explicit heap keeps
Python object identity observable, which is what distinguishes in-place
mutation from replacement. -/
structure ClientState where
  store : List InstObj
  instanceRefs : List Nat
  instanceIds : List Nat
deriving DecidableEq

/-- Merge of one response entry, api.py lines 183-193: a known id keeps
its position in `self.instances` and has the SAME object's fields
overwritten in place (`setattr` loop at lines 188-189 plus
`instance.status = instance_latest['actual_status']` at line 190); an
unknown id gets a fresh `Instance` appended together with its id. -/
def mergeOne (cs : ClientState) (latest : RespInst) : ClientState :=
  if latest.id ∈ cs.instanceIds then
    let idx := cs.instanceIds.indexOf latest.id
    let r := cs.instanceRefs.getD idx 0
    { cs with store := cs.store.set r (instFromResp latest) }
  else
    { store := cs.store ++ [instFromResp latest],
      instanceRefs := cs.instanceRefs ++ [cs.store.length],
      instanceIds := cs.instanceIds ++ [latest.id] }

/-- Cache refresh of `VastClient.get_instances` (api.py lines 182-195):
fold the merge over the response entries in order. -/
def get_instances_merge (cs : ClientState) (resp : List RespInst) : ClientState :=
  resp.foldl mergeOne cs

/-- Retry wrapper of `VastClient.get_instances` (api.py lines 162-181).
`attempt k` is the outcome of the `k`-th HTTP request
(`Except.error e` models a raised `HTTPError e`).  On an error with
budget left the code sleeps `retry_delay_s` and recurses with
`retries - 1`; with no budget left the bare `raise` re-raises the caught
error.  Returns the result together with the number of attempts made
and the total seconds slept. -/
def get_instances_retry (attempt : Nat → Except String (List RespInst))
    (retry_delay_s : Nat) :
    Nat → Nat → Except String (List RespInst) × Nat × Nat
  | retries, k =>
    match attempt k with
    | Except.ok resp => (Except.ok resp, 1, 0)
    | Except.error e =>
      match retries with
      | 0 => (Except.error e, 1, 0)
      | r + 1 =>
        let res := get_instances_retry attempt retry_delay_s r (k + 1)
        (res.1, res.2.1 + 1, res.2.2 + retry_delay_s)

/-- Python `list.index`: index of the first occurrence, raising
`ValueError` when the element is absent. -/
def listIndex (l : List Nat) (x : Nat) : Except String Nat :=
  match l.indexOf? x with
  | some i => Except.ok i
  | none => Except.error ("ValueError: " ++ toString x ++ " is not in list")

/-- Lookup step of `VastClient.get_instance` (api.py lines 197-210)
after the `get_instances` refresh, over the refreshed `instance_ids`:
`idx = self.instance_ids.index(id)` followed by
`instance = self.instances[idx] if idx >= 0 else None`.  The guard is
kept verbatim even though `index` only ever yields a non-negative
index, which is what makes the `None` branch (and the retry branch
behind `if instance is None`) unreachable.  The result stands for the
`Instance` at position `idx`. -/
def get_instance (instance_ids : List Nat) (id : Nat) : Except String (Option Nat) :=
  match listIndex instance_ids id with
  | Except.error e => Except.error e
  | Except.ok idx => Except.ok (if 0 ≤ idx then some idx else none)

/-! ### Search query assembly (`search_offers`) -/

/-- Scalar value of a filter clause, as (de)serialized onto the wire.
Integers model the numeric-looking values the claims exercise. -/
inductive PyScalar where
  | bool : Bool → PyScalar
  | num : Int → PyScalar
  | str : String → PyScalar
deriving DecidableEq

/-- Value of a filter clause: a scalar or a set of scalars (the spec
data model allows exactly these two shapes). -/
inductive PyVal where
  | scalar : PyScalar → PyVal
  | arr : List PyScalar → PyVal
deriving DecidableEq

/-- Value of one entry of the assembled query object: a per-field
operator-to-value object, the `order` array of [field, direction]
pairs, the `type` string, or a bare boolean flag
(`disable_bundling`). -/
inductive QVal where
  | clause : List (String × PyVal) → QVal
  | orderList : List (String × String) → QVal
  | typeStr : String → QVal
  | boolVal : Bool → QVal
deriving DecidableEq

/-- Python dict assignment `d[k] = v` on an insertion-ordered
association list: overwrite in place when the key exists, append
otherwise. -/
def setKey (qa : List (String × QVal)) (k : String) (v : QVal) :
    List (String × QVal) :=
  if qa.any (fun p => p.1 = k) then
    qa.map (fun p => if p.1 = k then (k, v) else p)
  else qa ++ [(k, v)]

/-- Field-alias table of `search_offers` (api.py lines 277-278). -/
def field_alias : List (String × String) :=
  [("cuda_vers", "cuda_max_good"), ("reliability", "reliability2"),
   ("dlperf_usd", "dlperf_per_dphtotal"), ("dph", "dph_total"),
   ("flops_usd", "flops_per_dphtotal")]

/-- Python `str.strip("-")`: remove `-` characters from both ends. -/
def stripDashes (s : String) : String :=
  String.mk (((s.toList.dropWhile (fun c => c = '-')).reverse.dropWhile
    (fun c => c = '-')).reverse)

/-- Sort-order parsing of `search_offers` (api.py lines 288-298):
split on commas, strip whitespace, skip empty names, mark a name
changed by `strip("-")` as descending, strip the dashes, resolve the
alias, and append the [field, direction] pair. -/
def parseSortOrder (sort_order : String) : List (String × String) :=
  (pySplitChar ',' sort_order).foldl (fun order name0 =>
    let name := pyStrip name0
    if name.toList.isEmpty then order
    else
      let direction := if stripDashes name ≠ name then "desc" else "asc"
      let field := stripDashes name
      let field2 := ((field_alias.lookup field).getD field)
      order ++ [(field2, direction)]) []

/-- Modelled from the spec: operator table of the filter-expression
parser `parse_query`, which lives in `vastai/vast.py`, a module absent
from the snapshot.  Two-character operators come first so that the scan
is longest-match-first. -/
def opTable : List (String × String) :=
  [("!=", "neq"), ("<=", "lte"), (">=", "gte"), ("=", "eq"), ("<", "lt"), (">", "gt")]

/-- Modelled from the spec: at one scan position, try the operators
longest-match-first; on a hit return the operator name and the
remaining characters. -/
def matchOp (cs : List Char) : Option (String × List Char) :=
  opTable.findSome? (fun p =>
    if p.1.toList.isPrefixOf cs then some (p.2, cs.drop p.1.toList.length)
    else none)

/-- Modelled from the spec: split a token into field characters,
operator name, and raw-value characters at the first matching operator
substring.  `acc` holds the field characters scanned so far in reverse. -/
def splitClause : List Char → List Char → Option (List Char × String × List Char)
  | _, [] => none
  | acc, c :: rest =>
    match matchOp (c :: rest) with
    | some (opName, after) => some (acc.reverse, opName, after)
    | none => splitClause (c :: acc) rest

/-- Modelled from the spec: scalar value coercion — numeric-looking
values parse as numbers, `true`/`false` case-insensitively as booleans,
everything else stays a string. -/
def parseScalar (s : String) : PyScalar :=
  match pyToInt? s with
  | some n => PyScalar.num n
  | none =>
    if pyLower s = "true" then PyScalar.bool true
    else if pyLower s = "false" then PyScalar.bool false
    else PyScalar.str s

/-- Modelled from the spec: one token parses into (field, operator
name, value); a missing operator is a `ParseError` naming the token; a
bracketed comma-separated list parses as a set and forces operator
`in`. -/
def parseClause (tok : String) : Except String (String × String × PyVal) :=
  match splitClause [] tok.toList with
  | none => Except.error ("ParseError: " ++ tok)
  | some (fieldCs, opName, valCs) =>
    let field := String.mk fieldCs
    let raw := String.mk valCs
    if pyStartsWith raw "[" && pyEndsWith raw "]" then
      let inner := String.mk ((raw.toList.drop 1).dropLast)
      Except.ok (field, "in",
        PyVal.arr ((pySplitChar ',' inner).map (fun item => parseScalar (pyStrip item))))
    else Except.ok (field, opName, PyVal.scalar (parseScalar raw))

/-- Modelled from the spec: tokenizer of the filter expression — split
on spaces at bracket depth zero, keeping bracketed value literals
intact.  `depth` is the current bracket depth, `cur` the current token
characters in reverse, `acc` the completed tokens. -/
def tokenizeGo : List Char → Nat → List Char → List String → List String
  | [], _, cur, acc =>
    acc ++ (if cur.isEmpty then [] else [String.mk cur.reverse])
  | c :: rest, depth, cur, acc =>
    if c = ' ' ∧ depth = 0 then
      tokenizeGo rest depth []
        (acc ++ (if cur.isEmpty then [] else [String.mk cur.reverse]))
    else
      tokenizeGo rest
        (if c = '[' then depth + 1 else if c = ']' then depth - 1 else depth)
        (c :: cur) acc

/-- Modelled from the spec: whitespace tokenization outside bracketed
value literals. -/
def tokenizeQuery (s : String) : List String :=
  tokenizeGo s.toList 0 [] []

/-- Modelled from the spec: `parse_query` of `vastai/vast.py` (absent
from the snapshot; only its caller at api.py line 285 is present).
Parses each token into a clause, resolves the field through the alias
table, and inserts it into the caller-supplied default mapping, a
parsed clause overwriting any default clause for the same resolved
field. -/
def parse_query (aliasTable : List (String × String)) (q : String)
    (defaults : List (String × QVal)) : Except String (List (String × QVal)) :=
  (tokenizeQuery q).foldlM (fun acc tok => do
    let (field, opName, val) ← parseClause tok
    let field2 := ((aliasTable.lookup field).getD field)
    pure (setKey acc field2 (QVal.clause [(opName, val)]))) defaults

/-- Default clauses baked into `search_offers` when `no_default` is
false (api.py line 282). -/
def defaultQueryArgs : List (String × QVal) :=
  [("verified", QVal.clause [("eq", PyVal.scalar (PyScalar.bool true))]),
   ("external", QVal.clause [("eq", PyVal.scalar (PyScalar.bool false))]),
   ("rentable", QVal.clause [("eq", PyVal.scalar (PyScalar.bool true))])]

/-- Declared default of the `no_default` parameter in the
`search_offers` signature (api.py line 261): a call that does not pass
the flag uses this value. -/
def search_offers_no_default_default : Bool := true

/-- Entry assembly of `search_offers` lines 300-303: set the `order`
array, the `type` string, and — when requested — the
`disable_bundling` flag on the clause mapping. -/
def searchOffersAssemble (sort_order instance_type : String)
    (disable_bundling : Bool) (query_args : List (String × QVal)) :
    List (String × QVal) :=
  let query_args := setKey query_args "order" (QVal.orderList (parseSortOrder sort_order))
  let query_args := setKey query_args "type" (QVal.typeStr instance_type)
  if disable_bundling then setKey query_args "disable_bundling" (QVal.boolVal true)
  else query_args

/-- Query-object assembly of `VastClient.search_offers`
(api.py lines 275-304): start from the default clauses unless
`no_default`, merge the parsed filter expression when one is given (a
`ParseError` propagates like the Python exception), then set the
`order`, `type`, and (when requested) `disable_bundling` entries. -/
def searchOffersQuery (sort_order : String) (query : Option String)
    (instance_type : String) (no_default disable_bundling : Bool) :
    Except String (List (String × QVal)) :=
  match (match query with
         | some q => parse_query field_alias q (if no_default then [] else defaultQueryArgs)
         | none => Except.ok (if no_default then [] else defaultQueryArgs)) with
  | Except.error e => Except.error e
  | Except.ok query_args =>
    Except.ok (searchOffersAssemble sort_order instance_type disable_bundling query_args)

/-- Sort-entry handling as the amended claim states it: trim
whitespace, skip empty names, direction `desc` exactly when stripping
`-` characters from BOTH ends changes the name (so a leading dash also
requests descending order), dashes stripped before alias resolution.
Stated separately from `parseSortOrder` so the refinement can be proved
against the source definition. -/
def sortEntrySpec (name0 : String) : Option (String × String) :=
  let name := pyStrip name0
  if name.toList.isEmpty then none
  else
    let field := stripDashes name
    some ((field_alias.lookup field).getD field,
          if field ≠ name then "desc" else "asc")

/-- Every entry of a query mapping is a per-field operator object. -/
def clausesOnly (qa : List (String × QVal)) : Prop :=
  ∀ p ∈ qa, ∃ ops, p.2 = QVal.clause ops

/-!
## Theorems

Helper lemmas first, then one theorem per claim (with its witness or
counterexample where required).
-/

/-- An accepted status makes `_check_status` return `True`: no failure
message, a present status, and a case-insensitive match against the
target (any member for a list target). -/
theorem check_status_accepts (st : PollState) (target : PollTarget) (cur : String)
    (hmsg : msgFails st.status_msg = false) (hst : st.status = some cur)
    (hacc : targetAccepts target cur) :
    check_status st target = Except.ok true := by
  unfold check_status
  rw [hmsg, hst]
  simp only [if_false, Bool.false_eq_true]
  cases target with
  | str s =>
    simp only [targetAccepts] at hacc
    simp [hacc]
  | list l =>
    simp only [targetAccepts] at hacc
    obtain ⟨s, hs, he⟩ := hacc
    simp only [Except.ok.injEq, List.any_eq_true]
    exact ⟨s, hs, by simp [he]⟩

/-- With no failure message, the empty-list target always makes
`_check_status` return `False`. -/
theorem check_status_emptyList (st : PollState)
    (hmsg : msgFails st.status_msg = false) :
    check_status st (PollTarget.list []) = Except.ok false := by
  unfold check_status
  rw [hmsg]
  cases st.status <;> simp

/-- The empty-list target can never make `_check_status` return
`True`: the member loop over `[]` falls through to `False`. -/
theorem check_status_emptyList_ne_true (st : PollState) :
    check_status st (PollTarget.list []) ≠ Except.ok true := by
  unfold check_status
  by_cases hmsg : msgFails st.status_msg
  · simp [hmsg]
  · rw [if_neg hmsg]
    cases st.status <;> simp

/-- C1 (counterexample): the claim as stated fails — a first snapshot
whose status equals the target (case-insensitively) is NOT returned
when its status message carries the failure prefix: `_check_status`
raises `UnhandledSetupError` before the status comparison, so the
poller does not return the snapshot on the first iteration. -/
theorem c1_match_counterexample :
    targetAccepts (PollTarget.str "running") "running" ∧
    wait_until
      (fun _ => some ⟨1, some "running", some "Unhandled setup error: disk full"⟩)
      ⟨none, none⟩ 1 (PollTarget.str "running") 1 10 20 5
      = some (PollResult.unhandledSetup "Unhandled setup error: disk full", 1, 0) ∧
    PollResult.unhandledSetup "Unhandled setup error: disk full"
      ≠ PollResult.found
          (some ⟨1, some "running", some "Unhandled setup error: disk full"⟩) :=
  ⟨rfl, by decide, by decide⟩

/-- C1 (amended): if the first fetched snapshot's status message does
not trigger the failure check and its status equals the target
case-insensitively (equals ANY member when the target is a set), the
poller returns that snapshot on the first iteration, with exactly one
fetch performed and no sleep. -/
theorem c1_first_match_returns_immediately
    (fetch : Nat → Option Snapshot) (init : PollState) (inst_id : Nat)
    (target : PollTarget) (check_every_s timeout destroy_return_delay fuel : Nat)
    (snap : Snapshot) (cur : String)
    (hfuel : 1 ≤ fuel)
    (hfetch : fetch 0 = some snap)
    (hmsg : msgFails snap.status_msg = false)
    (hstatus : snap.status = some cur)
    (hacc : targetAccepts target cur) :
    wait_until fetch init inst_id target check_every_s timeout destroy_return_delay fuel
      = some (PollResult.found (some snap), 1, 0) := by
  obtain ⟨n, rfl⟩ : ∃ n, fuel = n + 1 := ⟨fuel - 1, by omega⟩
  have hck : check_status (stepState init (fetch 0)) target = Except.ok true := by
    rw [hfetch]
    exact check_status_accepts _ _ cur hmsg hstatus hacc
  unfold wait_until
  rw [wait_until_loop, hck]
  simp [hfetch]

/-- C1 (witness): a snapshot with status `"RUNNING"` against target
`"running"` is returned at once with one fetch and zero sleeps. -/
theorem c1_first_match_returns_immediately_witness :
    wait_until (fun _ => some ⟨1, some "RUNNING", none⟩) ⟨none, none⟩ 1
      (PollTarget.str "running") 1 10 20 5
      = some (PollResult.found (some ⟨1, some "RUNNING", none⟩), 1, 0) :=
  c1_first_match_returns_immediately
    (fun _ => some ⟨1, some "RUNNING", none⟩) ⟨none, none⟩ 1
    (PollTarget.str "running") 1 10 20 5 ⟨1, some "RUNNING", none⟩ "RUNNING"
    (by decide) rfl (by decide) rfl rfl

/-- C2: a first snapshot whose status message starts with
`"Unhandled setup error"` makes the poller fail on the very first
iteration with the `UnhandledSetupError` carrying that exact message,
for every timeout, interval, grace period and target, with exactly one
fetch and no sleep. -/
theorem c2_unhandled_setup_fails_immediately
    (fetch : Nat → Option Snapshot) (init : PollState) (inst_id : Nat)
    (target : PollTarget) (check_every_s timeout destroy_return_delay fuel : Nat)
    (snap : Snapshot) (m : String)
    (hfuel : 1 ≤ fuel)
    (hfetch : fetch 0 = some snap)
    (hmsg : snap.status_msg = some m)
    (hpre : pyStartsWith m failMsgPrefix = true)
    (hne : m ≠ "") :
    wait_until fetch init inst_id target check_every_s timeout destroy_return_delay fuel
      = some (PollResult.unhandledSetup m, 1, 0) := by
  obtain ⟨n, rfl⟩ : ∃ n, fuel = n + 1 := ⟨fuel - 1, by omega⟩
  have hnil : m.toList.isEmpty = false := by
    rcases m with ⟨data⟩
    cases data with
    | nil => exact absurd (by decide) hne
    | cons c cs => rfl
  have hfail : msgFails (some m) = true := by
    show (!m.toList.isEmpty && pyStartsWith m failMsgPrefix) = true
    rw [hnil, hpre]
    rfl
  have hck : check_status (stepState init (fetch 0)) target = Except.error m := by
    rw [hfetch]
    unfold check_status
    simp [stepState, hmsg, hfail]
  unfold wait_until
  rw [wait_until_loop, hck]

/-- C2 (witness): a snapshot carrying
`"Unhandled setup error: disk full"` fails the poll at once, even with
timeout `0`. -/
theorem c2_unhandled_setup_fails_immediately_witness :
    wait_until
      (fun _ => some ⟨1, some "loading", some "Unhandled setup error: disk full"⟩)
      ⟨none, none⟩ 1 (PollTarget.str "running") 1 0 20 5
      = some (PollResult.unhandledSetup "Unhandled setup error: disk full", 1, 0) :=
  c2_unhandled_setup_fails_immediately
    (fun _ => some ⟨1, some "loading", some "Unhandled setup error: disk full"⟩)
    ⟨none, none⟩ 1 (PollTarget.str "running") 1 0 20 5
    ⟨1, some "loading", some "Unhandled setup error: disk full"⟩
    "Unhandled setup error: disk full"
    (by decide) rfl rfl (by decide) (by decide)

/-- Loop lemma for the timeout path: when every fetch returns a
snapshot on which `_check_status` yields `False`, and the fuel covers
the remaining time, the loop exits through the `TimeoutError` branch
with the formatted message. -/
theorem wait_until_loop_timeout
    (fetch : Nat → Option Snapshot) (target : PollTarget)
    (check_every_s timeout destroy_return_delay : Nat)
    (hfetch : ∀ k, ∃ snap, fetch k = some snap ∧
      check_status ⟨snap.status, snap.status_msg⟩ target = Except.ok false) :
    ∀ (n : Nat) (st : PollState) (lastInst : Option Snapshot) (fetches sleeps : Nat),
      check_status st target = Except.ok false →
      timeout ≤ (sleeps + n) * check_every_s →
      ∃ f s, wait_until_loop fetch target check_every_s timeout destroy_return_delay
          (n + 1) st lastInst fetches sleeps
        = some (PollResult.timeout (timeoutMsg check_every_s target), f, s) := by
  intro n
  induction n with
  | zero =>
    intro st lastInst fetches sleeps hck hb
    refine ⟨fetches, sleeps, ?_⟩
    rw [wait_until_loop, hck]
    rw [Nat.add_zero] at hb
    simp [Nat.not_lt.mpr hb]
  | succ n ih =>
    intro st lastInst fetches sleeps hck hb
    by_cases hlt : sleeps * check_every_s < timeout
    · obtain ⟨snap, hfs, hcs⟩ := hfetch fetches
      have hb2 : timeout ≤ ((sleeps + 1) + n) * check_every_s := by
        have h : (sleeps + 1) + n = sleeps + (n + 1) := by omega
        rw [h]; exact hb
      obtain ⟨f, s, hres⟩ :=
        ih ⟨snap.status, snap.status_msg⟩ (some snap) (fetches + 1) (sleeps + 1) hcs hb2
      refine ⟨f, s, ?_⟩
      rw [wait_until_loop, hck]
      simp only [if_pos hlt, hfs]
      exact hres
    · refine ⟨fetches, sleeps, ?_⟩
      rw [wait_until_loop, hck]
      simp [hlt]

/-- C3 (counterexample): a run that times out produces the message of
api.py line 657, which names the interval and the target but NOT the
resource id — here id `4242`, whose decimal rendering does not occur in
the message. -/
theorem c3_timeout_message_counterexample :
    wait_until (fun _ => some ⟨4242, some "loading", none⟩) ⟨none, none⟩ 4242
      (PollTarget.str "running") 1 1 20 5
      = some (PollResult.timeout (timeoutMsg 1 (PollTarget.str "running")), 2, 1) ∧
    timeoutMsg 1 (PollTarget.str "running")
      = "Checked every 1 seconds, but self.status was never in target_status (running)." ∧
    ¬ ((toString (4242 : Nat)).toList
        <:+: (timeoutMsg 1 (PollTarget.str "running")).toList) :=
  ⟨by decide, by decide, by decide⟩

/-- C3 (amended): when every fetched snapshot fails the status check
(and none carries the failure message), a poll whose fuel covers the
timeout fails with the `TimeoutError` whose message names the interval
used and the unmet target — but not the resource id, which the format
string does not mention. -/
theorem c3_timeout_names_interval_and_target
    (fetch : Nat → Option Snapshot) (init : PollState) (inst_id : Nat)
    (target : PollTarget) (check_every_s timeout destroy_return_delay fuel : Nat)
    (hfetch : ∀ k, ∃ snap, fetch k = some snap ∧
      check_status ⟨snap.status, snap.status_msg⟩ target = Except.ok false)
    (hiv : 1 ≤ check_every_s) (hfuel : timeout < fuel) :
    (∃ f s, wait_until fetch init inst_id target check_every_s timeout
        destroy_return_delay fuel
      = some (PollResult.timeout (timeoutMsg check_every_s target), f, s)) ∧
    (toString check_every_s).toList <:+: (timeoutMsg check_every_s target).toList ∧
    (pyStrTarget target).toList <:+: (timeoutMsg check_every_s target).toList := by
  refine ⟨?_, ?_, ?_⟩
  · obtain ⟨n, rfl⟩ : ∃ n, fuel = n + 1 := ⟨fuel - 1, by omega⟩
    obtain ⟨snap0, hf0, hc0⟩ := hfetch 0
    have hst : stepState init (fetch 0) = ⟨snap0.status, snap0.status_msg⟩ := by
      rw [hf0]; rfl
    have hb : timeout ≤ (0 + n) * check_every_s := by
      rw [Nat.zero_add]
      have h1 : n ≤ n * check_every_s := Nat.le_mul_of_pos_right n (by omega)
      omega
    unfold wait_until
    rw [hst]
    exact wait_until_loop_timeout fetch target check_every_s timeout
      destroy_return_delay hfetch n ⟨snap0.status, snap0.status_msg⟩ (fetch 0) 1 0
      hc0 hb
  · refine ⟨"Checked every ".toList,
      (" seconds, but self.status was never in target_status (" ++
        pyStrTarget target ++ ").").toList, ?_⟩
    show _ ++ _ ++ _ = (timeoutMsg check_every_s target).toList
    unfold timeoutMsg
    simp [String.data_append, String.toList]
  · refine ⟨("Checked every " ++ toString check_every_s ++
      " seconds, but self.status was never in target_status (").toList,
      ").".toList, ?_⟩
    show _ ++ _ ++ _ = (timeoutMsg check_every_s target).toList
    unfold timeoutMsg
    simp [String.data_append, String.toList]

/-- C3 (witness): the amended theorem at a concrete never-satisfied
poll — target `"running"`, interval `2`, timeout `5`. -/
theorem c3_timeout_names_interval_and_target_witness :
    (∃ f s, wait_until (fun _ => some ⟨7, some "loading", none⟩) ⟨none, none⟩ 7
        (PollTarget.str "running") 2 5 20 6
      = some (PollResult.timeout (timeoutMsg 2 (PollTarget.str "running")), f, s)) ∧
    (toString (2 : Nat)).toList <:+: (timeoutMsg 2 (PollTarget.str "running")).toList ∧
    (pyStrTarget (PollTarget.str "running")).toList
      <:+: (timeoutMsg 2 (PollTarget.str "running")).toList :=
  c3_timeout_names_interval_and_target
    (fun _ => some ⟨7, some "loading", none⟩) ⟨none, none⟩ 7
    (PollTarget.str "running") 2 5 20 6
    (fun _ => ⟨⟨7, some "loading", none⟩, rfl, by decide⟩)
    (by decide) (by decide)

/-- Loop lemma for the destroyed path: with an empty-list target and a
fetch that always reports the instance absent, the state never changes,
the status check never succeeds, and once the elapsed time passes the
grace period (before the timeout) the loop returns through the
`Instance destroyed` branch. -/
theorem wait_until_loop_destroyed
    (fetch : Nat → Option Snapshot) (st : PollState)
    (check_every_s timeout destroy_return_delay : Nat)
    (hfetch : ∀ k, fetch k = none)
    (hck : check_status st (PollTarget.list []) = Except.ok false)
    (hto : destroy_return_delay + check_every_s < timeout) :
    ∀ (n : Nat) (lastInst : Option Snapshot) (fetches sleeps : Nat),
      destroy_return_delay < (sleeps + n) * check_every_s →
      sleeps * check_every_s ≤ destroy_return_delay + check_every_s →
      ∃ f s, wait_until_loop fetch (PollTarget.list []) check_every_s timeout
          destroy_return_delay (n + 1) st lastInst fetches sleeps
        = some (PollResult.destroyed, f, s) := by
  intro n
  induction n with
  | zero =>
    intro lastInst fetches sleeps hfar hnear
    rw [Nat.add_zero] at hfar
    refine ⟨fetches + 1, sleeps, ?_⟩
    rw [wait_until_loop, hck]
    simp only [hfetch fetches]
    rw [if_pos (by omega), if_pos hfar]
  | succ n ih =>
    intro lastInst fetches sleeps hfar hnear
    by_cases hg : sleeps * check_every_s > destroy_return_delay
    · refine ⟨fetches + 1, sleeps, ?_⟩
      rw [wait_until_loop, hck]
      simp only [hfetch fetches]
      rw [if_pos (by omega), if_pos hg]
    · have hle : sleeps * check_every_s ≤ destroy_return_delay := by omega
      have hfar2 : destroy_return_delay < ((sleeps + 1) + n) * check_every_s := by
        have h : (sleeps + 1) + n = sleeps + (n + 1) := by omega
        rw [h]; exact hfar
      have hnear2 : (sleeps + 1) * check_every_s ≤
          destroy_return_delay + check_every_s := by
        have h : (sleeps + 1) * check_every_s
            = sleeps * check_every_s + check_every_s := by ring
        omega
      obtain ⟨f, s, hres⟩ := ih none (fetches + 1) (sleeps + 1) hfar2 hnear2
      refine ⟨f, s, ?_⟩
      rw [wait_until_loop, hck]
      simp only [hfetch fetches]
      rw [if_pos (by omega), if_neg hg]
      -- the recursive call keeps the state and passes `none` as the
      -- last fetched instance
      exact hres

/-- C4: an empty-set poll target can never succeed through a status
match — `_check_status` never returns `True` for it — and a poll whose
fetch reports the resource absent throughout returns the empty
(`destroyed`) result once the grace period has elapsed, rather than
timing out, provided the timeout leaves room past the grace period. -/
theorem c4_empty_target_waits_for_absence
    (fetch : Nat → Option Snapshot) (init : PollState) (inst_id : Nat)
    (check_every_s timeout destroy_return_delay fuel : Nat)
    (hfetch : ∀ k, fetch k = none)
    (hmsg : msgFails init.status_msg = false)
    (hiv : 1 ≤ check_every_s)
    (hto : destroy_return_delay + check_every_s < timeout)
    (hfuel : destroy_return_delay + 2 ≤ fuel) :
    (∀ st : PollState, check_status st (PollTarget.list []) ≠ Except.ok true) ∧
    ∃ f s, wait_until fetch init inst_id (PollTarget.list []) check_every_s timeout
        destroy_return_delay fuel
      = some (PollResult.destroyed, f, s) := by
  refine ⟨check_status_emptyList_ne_true, ?_⟩
  obtain ⟨n, rfl⟩ : ∃ n, fuel = n + 1 := ⟨fuel - 1, by omega⟩
  have hst : stepState init (fetch 0) = init := by rw [hfetch 0]; rfl
  have hck : check_status init (PollTarget.list []) = Except.ok false :=
    check_status_emptyList init hmsg
  have hfar : destroy_return_delay < (0 + n) * check_every_s := by
    rw [Nat.zero_add]
    have h1 : n ≤ n * check_every_s := Nat.le_mul_of_pos_right n (by omega)
    omega
  unfold wait_until
  rw [hst]
  exact wait_until_loop_destroyed fetch init check_every_s timeout
    destroy_return_delay hfetch hck hto n (fetch 0) 1 0 hfar (by simp)

/-- C4 (witness): the `wait_until_destroyed` defaults — interval `10`,
timeout `60`, grace `20` — with an always-absent fetch return the empty
result. -/
theorem c4_empty_target_waits_for_absence_witness :
    (∀ st : PollState, check_status st (PollTarget.list []) ≠ Except.ok true) ∧
    ∃ f s, wait_until (fun _ => none) ⟨some "running", none⟩ 1 (PollTarget.list [])
        10 60 20 30
      = some (PollResult.destroyed, f, s) :=
  c4_empty_target_waits_for_absence (fun _ => none) ⟨some "running", none⟩ 1
    10 60 20 30 (fun _ => rfl) (by decide) (by decide) (by decide) (by decide)

/-- C5: `get_instance` never yields the `None` ("NotFound") variant.
For an id absent from the refreshed cache, `self.instance_ids.index(id)`
raises `ValueError`, so the fetch THROWS instead of returning `NotFound`
— the `if idx >= 0 else None` guard and the retry branch behind
`if instance is None` are unreachable.  For a present id it returns the
instance.  This contradicts the fetch contract the poller relies on. -/
theorem c5_get_instance_raises_on_missing (instance_ids : List Nat) (id : Nat) :
    (id ∉ instance_ids →
      get_instance instance_ids id =
        Except.error ("ValueError: " ++ toString id ++ " is not in list")) ∧
    (id ∈ instance_ids → ∃ idx, get_instance instance_ids id = Except.ok (some idx)) := by
  constructor
  · intro hnm
    have hnone : instance_ids.indexOf? id = none := by
      rw [List.indexOf?_eq_none_iff]
      intro x hx hbe
      exact hnm ((eq_of_beq hbe) ▸ hx)
    unfold get_instance listIndex
    rw [hnone]
  · intro hm
    cases hidx : instance_ids.indexOf? id with
    | none =>
      exfalso
      exact absurd (beq_self_eq_true id) (by
        have := List.indexOf?_eq_none_iff.mp hidx id hm
        simpa using this)
    | some i =>
      refine ⟨i, ?_⟩
      unfold get_instance listIndex
      rw [hidx]
      simp

/-- C5 (witness): a client with no cached instances — id `7` raises
`ValueError` rather than returning the `NotFound` variant; id `384792`
present in the cache is found. -/
theorem c5_get_instance_raises_on_missing_witness :
    get_instance [] 7 = Except.error "ValueError: 7 is not in list" ∧
    ∃ idx, get_instance [384792] 384792 = Except.ok (some idx) :=
  ⟨(c5_get_instance_raises_on_missing [] 7).1 (by decide),
   (c5_get_instance_raises_on_missing [384792] 384792).2 (by decide)⟩

/-- C6 (counterexample): the sort name `-score` carries no `-` SUFFIX,
so under the claim it should sort ascending; the source strips `-` from
both ends (`name.strip("-")`), so a LEADING dash also yields
descending order. -/
theorem c6_sort_direction_counterexample :
    parseSortOrder "-score" = [("score", "desc")] ∧
    pyEndsWith "-score" "-" = false :=
  ⟨by decide, by decide⟩

/-- Fold characterization of the sort parser: appending entries through
the accumulator is the same as a `filterMap` of the per-name rule. -/
theorem parseSortOrder_foldl (names : List String) (acc : List (String × String)) :
    names.foldl (fun order name0 =>
      let name := pyStrip name0
      if name.toList.isEmpty then order
      else
        let direction := if stripDashes name ≠ name then "desc" else "asc"
        let field := stripDashes name
        let field2 := ((field_alias.lookup field).getD field)
        order ++ [(field2, direction)]) acc
      = acc ++ names.filterMap sortEntrySpec := by
  induction names generalizing acc with
  | nil => simp
  | cons name0 rest ih =>
    simp only [List.foldl_cons, List.filterMap_cons]
    by_cases hemp : (pyStrip name0).toList.isEmpty
    · rw [if_pos hemp]
      have hnone : sortEntrySpec name0 = none := by
        unfold sortEntrySpec
        rw [if_pos hemp]
      rw [hnone, ih]
    · rw [if_neg hemp]
      have hsome : sortEntrySpec name0 =
          some (((field_alias.lookup (stripDashes (pyStrip name0))).getD
                  (stripDashes (pyStrip name0))),
                if stripDashes (pyStrip name0) ≠ pyStrip name0 then "desc" else "asc") := by
        unfold sortEntrySpec
        rw [if_neg hemp]
      rw [hsome, ih]
      simp

/-- C6 (amended): the sort string splits on commas into names
(whitespace-trimmed, empties skipped, sequence preserved); a name
changed by stripping `-` characters from BOTH ends — that is, one with
a leading or a trailing dash — yields direction `desc`, all others
`asc`; the dashes are stripped before alias resolution. -/
theorem c6_sort_parsing_amended (sort_order : String) :
    parseSortOrder sort_order
      = (pySplitChar ',' sort_order).filterMap sortEntrySpec := by
  unfold parseSortOrder
  exact parseSortOrder_foldl (pySplitChar ',' sort_order) []

/-- Lookup through the overwrite branch of `setKey`: replacing the
binding of `k` does not affect lookups of a different key. -/
theorem lookup_map_overwrite (k k2 : String) (v : QVal) (h : k2 ≠ k) :
    ∀ qa : List (String × QVal),
      List.lookup k2 (qa.map (fun p => if p.1 = k then (k, v) else p))
        = List.lookup k2 qa := by
  intro qa
  induction qa with
  | nil => rfl
  | cons p rest ih =>
    rcases p with ⟨pk, pv⟩
    by_cases hp : pk = k
    · simp only [List.map_cons, hp, if_true]
      rw [List.lookup_cons, List.lookup_cons]
      rw [show (k2 == k) = false from beq_false_of_ne h]
      exact ih
    · simp only [List.map_cons, if_neg hp]
      rw [List.lookup_cons, List.lookup_cons]
      cases hbe : k2 == pk with
      | true => rfl
      | false => exact ih

/-- Lookup through the append branch of `setKey`: appending a binding
for `k` does not affect lookups of a different key. -/
theorem lookup_append_overwrite (k k2 : String) (v : QVal) (h : k2 ≠ k) :
    ∀ qa : List (String × QVal),
      List.lookup k2 (qa ++ [(k, v)]) = List.lookup k2 qa := by
  intro qa
  induction qa with
  | nil =>
    simp only [List.nil_append]
    rw [List.lookup_cons]
    rw [show (k2 == k) = false from beq_false_of_ne h]
  | cons p rest ih =>
    rcases p with ⟨pk, pv⟩
    simp only [List.cons_append]
    rw [List.lookup_cons, List.lookup_cons]
    cases hbe : k2 == pk with
    | true => rfl
    | false => exact ih

/-- Lookup of the overwritten key in the overwrite branch of
`setKey`. -/
theorem lookup_map_overwrite_self (k : String) (v : QVal) :
    ∀ qa : List (String × QVal), qa.any (fun p => p.1 = k) = true →
      List.lookup k (qa.map (fun p => if p.1 = k then (k, v) else p)) = some v := by
  intro qa
  induction qa with
  | nil => intro hany; simp at hany
  | cons p rest ih =>
    intro hany
    rcases p with ⟨pk, pv⟩
    by_cases hp : pk = k
    · simp only [List.map_cons, hp, if_true]
      rw [List.lookup_cons]
      rw [show (k == k) = true from by simp]
    · have hr : rest.any (fun p => p.1 = k) = true := by
        simp only [List.any_cons, Bool.or_eq_true, decide_eq_true_eq] at hany
        rcases hany with h1 | h1
        · exact absurd h1 hp
        · exact h1
      simp only [List.map_cons, if_neg hp]
      rw [List.lookup_cons]
      rw [show (k == pk) = false from beq_false_of_ne (Ne.symm hp)]
      exact ih hr

/-- Lookup of the appended key in the append branch of `setKey`. -/
theorem lookup_append_self (k : String) (v : QVal) :
    ∀ qa : List (String × QVal), qa.any (fun p => p.1 = k) = false →
      List.lookup k (qa ++ [(k, v)]) = some v := by
  intro qa
  induction qa with
  | nil =>
    intro _
    simp only [List.nil_append]
    rw [List.lookup_cons]
    rw [show (k == k) = true from by simp]
  | cons p rest ih =>
    intro hany
    rcases p with ⟨pk, pv⟩
    simp only [List.any_cons, Bool.or_eq_false_iff, decide_eq_false_iff_not] at hany
    obtain ⟨h1, h2⟩ := hany
    simp only [List.cons_append]
    rw [List.lookup_cons]
    rw [show (k == pk) = false from beq_false_of_ne (Ne.symm h1)]
    exact ih h2

/-- Dict assignment makes the assigned key map to the assigned value. -/
theorem lookup_setKey_self (qa : List (String × QVal)) (k : String) (v : QVal) :
    List.lookup k (setKey qa k v) = some v := by
  unfold setKey
  by_cases hany : qa.any (fun p => p.1 = k) = true
  · rw [if_pos hany]
    exact lookup_map_overwrite_self k v qa hany
  · rw [if_neg hany]
    exact lookup_append_self k v qa (Bool.not_eq_true _ ▸ hany)

/-- Dict assignment leaves every other key\x27s binding unchanged. -/
theorem lookup_setKey_ne (qa : List (String × QVal)) (k : String) (v : QVal)
    (k2 : String) (h : k2 ≠ k) :
    List.lookup k2 (setKey qa k v) = List.lookup k2 qa := by
  unfold setKey
  by_cases hany : qa.any (fun p => p.1 = k) = true
  · rw [if_pos hany]
    exact lookup_map_overwrite k k2 v h qa
  · rw [if_neg hany]
    exact lookup_append_overwrite k k2 v h qa

/-- Every entry after a dict assignment is either an original entry or
the assigned pair. -/
theorem mem_setKey (qa : List (String × QVal)) (k : String) (v : QVal)
    (p : String × QVal) (h : p ∈ setKey qa k v) : p ∈ qa ∨ p = (k, v) := by
  unfold setKey at h
  by_cases hany : qa.any (fun q => q.1 = k)
  · rw [if_pos hany] at h
    obtain ⟨q, hq, hfq⟩ := List.mem_map.mp h
    by_cases hqk : q.1 = k
    · right
      rw [if_pos hqk] at hfq
      exact hfq.symm
    · left
      rw [if_neg hqk] at hfq
      exact hfq ▸ hq
  · rw [if_neg hany] at h
    rcases List.mem_append.mp h with h1 | h1
    · exact Or.inl h1
    · exact Or.inr (by simpa using h1)

/-- Inserting a clause keeps the query mapping all-clauses. -/
theorem clausesOnly_setKey (qa : List (String × QVal)) (k : String)
    (ops : List (String × PyVal)) (h : clausesOnly qa) :
    clausesOnly (setKey qa k (QVal.clause ops)) := by
  intro p hp
  rcases mem_setKey qa k (QVal.clause ops) p hp with h1 | h1
  · exact h p h1
  · exact ⟨ops, by rw [h1]⟩

/-- The `parse_query` fold only inserts per-field operator objects: if
every default entry is a clause, so is every output entry. -/
theorem parse_query_fold_clausesOnly (aliasTable : List (String × String)) :
    ∀ (toks : List String) (d out : List (String × QVal)),
      clausesOnly d →
      (toks.foldlM (fun acc tok => do
        let (field, opName, val) ← parseClause tok
        let field2 := ((aliasTable.lookup field).getD field)
        pure (setKey acc field2 (QVal.clause [(opName, val)]))) d) = Except.ok out →
      clausesOnly out := by
  intro toks
  induction toks with
  | nil =>
    intro d out hd h
    simp only [List.foldlM_nil, pure] at h
    cases h
    exact hd
  | cons t ts ih =>
    intro d out hd h
    rw [List.foldlM_cons] at h
    cases hpc : parseClause t with
    | error e =>
      rw [hpc] at h
      simp [Bind.bind, Except.bind] at h
    | ok trip =>
      rcases trip with ⟨field, opName, val⟩
      rw [hpc] at h
      simp only [Bind.bind, Except.bind, pure] at h
      exact ih (setKey d ((aliasTable.lookup field).getD field)
        (QVal.clause [(opName, val)])) out
        (clausesOnly_setKey d _ [(opName, val)] hd) h

/-- C7 (counterexample): in the source, the `no_default` parameter of
`search_offers` DEFAULTS to `True`, so a call made with the declared
defaults (sort `"score-"`, no query, type `"on-demand"`) contains NO
`verified`/`rentable` clause: the defaults are opt-IN via
`no_default=False`, not baked in unless opted out. -/
theorem c7_defaults_counterexample :
    search_offers_no_default_default = true ∧
    searchOffersQuery "score-" none "on-demand" search_offers_no_default_default false
      = Except.ok [("order", QVal.orderList [("score", "desc")]),
                   ("type", QVal.typeStr "on-demand")] :=
  ⟨rfl, by decide⟩

/-- C7 (amended): the default clauses (`verified=true`, `external=false`,
`rentable=true`) are included only when the caller passes
`no_default=False` (the parameter defaults to `True`, so a default call
omits them); a clause parsed from the filter expression overwrites the
default clause for the same resolved field, and default clauses for
fields not mentioned in the expression pass through unchanged — here
`verified=false` overrides the `verified` default while `external` and
`rentable` keep theirs. -/
theorem c7_default_merge_amended (instance_type : String) (disable_bundling : Bool) :
    ((searchOffersQuery "score-" none instance_type false disable_bundling).map
        (fun qa => (List.lookup "verified" qa, List.lookup "external" qa,
                    List.lookup "rentable" qa))
      = Except.ok (some (QVal.clause [("eq", PyVal.scalar (PyScalar.bool true))]),
                   some (QVal.clause [("eq", PyVal.scalar (PyScalar.bool false))]),
                   some (QVal.clause [("eq", PyVal.scalar (PyScalar.bool true))]))) ∧
    ((searchOffersQuery "score-" (some "verified=false") instance_type false
        disable_bundling).map
        (fun qa => (List.lookup "verified" qa, List.lookup "external" qa,
                    List.lookup "rentable" qa))
      = Except.ok (some (QVal.clause [("eq", PyVal.scalar (PyScalar.bool false))]),
                   some (QVal.clause [("eq", PyVal.scalar (PyScalar.bool false))]),
                   some (QVal.clause [("eq", PyVal.scalar (PyScalar.bool true))]))) := by
  cases disable_bundling <;> exact ⟨rfl, rfl⟩

/-- C8: whenever `search_offers` assembles its query object, the result
contains an `order` entry holding the parsed [field, direction] pairs
and a `type` entry holding the instance-type string, and every other
entry except the optional `disable_bundling` flag is a per-field
operator-name-to-value object. -/
theorem c8_wire_format (sort_order : String) (query : Option String)
    (instance_type : String) (no_default disable_bundling : Bool)
    (qa : List (String × QVal))
    (h : searchOffersQuery sort_order query instance_type no_default disable_bundling
      = Except.ok qa) :
    List.lookup "order" qa = some (QVal.orderList (parseSortOrder sort_order)) ∧
    List.lookup "type" qa = some (QVal.typeStr instance_type) ∧
    ∀ k v, (k, v) ∈ qa → k ≠ "order" → k ≠ "type" → k ≠ "disable_bundling" →
      ∃ ops, v = QVal.clause ops := by
  unfold searchOffersQuery at h
  cases hq : (match query with
      | some q => parse_query field_alias q (if no_default then [] else defaultQueryArgs)
      | none => Except.ok (if no_default then [] else defaultQueryArgs)) with
  | error e =>
    rw [hq] at h
    simp at h
  | ok mid =>
    rw [hq] at h
    simp only [Except.ok.injEq] at h
    have hdef : clausesOnly (if no_default then [] else defaultQueryArgs) := by
      cases no_default with
      | true =>
        intro p hp
        simp at hp
      | false =>
        intro p hp
        simp only [Bool.false_eq_true, if_false, defaultQueryArgs, List.mem_cons,
          List.not_mem_nil, or_false] at hp
        rcases hp with hp | hp | hp <;> exact ⟨_, by rw [hp]⟩
    have hmid_cl : clausesOnly mid := by
      cases query with
      | none =>
        simp only [Except.ok.injEq] at hq
        subst hq
        exact hdef
      | some q =>
        unfold parse_query at hq
        exact parse_query_fold_clausesOnly field_alias (tokenizeQuery q) _ mid hdef hq
    subst h
    unfold searchOffersAssemble
    refine ⟨?_, ?_, ?_⟩
    · cases disable_bundling with
      | true =>
        rw [if_pos rfl]
        rw [lookup_setKey_ne _ _ _ _ (by decide)]
        rw [lookup_setKey_ne _ _ _ _ (by decide)]
        exact lookup_setKey_self _ _ _
      | false =>
        rw [if_neg Bool.false_ne_true]
        rw [lookup_setKey_ne _ _ _ _ (by decide)]
        exact lookup_setKey_self _ _ _
    · cases disable_bundling with
      | true =>
        rw [if_pos rfl]
        rw [lookup_setKey_ne _ _ _ _ (by decide)]
        exact lookup_setKey_self _ _ _
      | false =>
        rw [if_neg Bool.false_ne_true]
        exact lookup_setKey_self _ _ _
    · intro k v hkv hko hkt hkd
      have hstep : (k, v) ∈ setKey (setKey mid "order"
          (QVal.orderList (parseSortOrder sort_order))) "type"
          (QVal.typeStr instance_type) := by
        cases disable_bundling with
        | true =>
          rw [if_pos rfl] at hkv
          rcases mem_setKey _ _ _ _ hkv with h1 | h1
          · exact h1
          · exact absurd (congrArg Prod.fst h1) hkd
        | false =>
          rw [if_neg Bool.false_ne_true] at hkv
          exact hkv
      rcases mem_setKey _ _ _ _ hstep with h1 | h1
      · rcases mem_setKey _ _ _ _ h1 with h2 | h2
        · exact hmid_cl (k, v) h2
        · exact absurd (congrArg Prod.fst h2) hko
      · exact absurd (congrArg Prod.fst h1) hkt

/-- C8 (witness): the wire-format theorem at the default call. -/
theorem c8_wire_format_witness :
    List.lookup "order" [("order", QVal.orderList [("score", "desc")]),
        ("type", QVal.typeStr "on-demand")]
      = some (QVal.orderList (parseSortOrder "score-")) ∧
    List.lookup "type" [("order", QVal.orderList [("score", "desc")]),
        ("type", QVal.typeStr "on-demand")]
      = some (QVal.typeStr "on-demand") ∧
    ∀ k v, (k, v) ∈ [("order", QVal.orderList [("score", "desc")]),
        ("type", QVal.typeStr "on-demand")] →
      k ≠ "order" → k ≠ "type" → k ≠ "disable_bundling" →
      ∃ ops, v = QVal.clause ops :=
  c8_wire_format "score-" none "on-demand" true false
    [("order", QVal.orderList [("score", "desc")]), ("type", QVal.typeStr "on-demand")]
    (by decide)

/-- C9 (counterexample): the merge of `get_instances` does NOT replace
the cached snapshot with a new one — it mutates the existing `Instance`
object in place.  Starting from a cache whose single object (heap
reference `0`) holds status `"loading"`, refreshing with a response
carrying status `"running"` leaves `self.instances` pointing at the
SAME reference `0`, whose contents have changed: the snapshot captured
by the earlier fetch has been mutated, not superseded. -/
theorem c9_merge_mutates_counterexample :
    get_instances_merge ⟨[⟨1, some "loading", none⟩], [0], [1]⟩ [⟨1, "running", none⟩]
      = ({ store := [⟨1, some "running", none⟩], instanceRefs := [0],
           instanceIds := [1] } : ClientState) ∧
    (⟨1, some "running", none⟩ : InstObj) ≠ ⟨1, some "loading", none⟩ :=
  ⟨by decide, by decide⟩

/-- C9 (amended): for an id already present in the cache, the merge
keeps `self.instances` and `self.instance_ids` unchanged (the same
object reference is reused, no new snapshot object is created) and
overwrites that object's stored fields in place with the latest
response data; only unknown ids get fresh objects appended. -/
theorem c9_merge_updates_in_place (cs : ClientState) (latest : RespInst)
    (h : latest.id ∈ cs.instanceIds) :
    (mergeOne cs latest).instanceRefs = cs.instanceRefs ∧
    (mergeOne cs latest).instanceIds = cs.instanceIds ∧
    (mergeOne cs latest).store =
      cs.store.set (cs.instanceRefs.getD (cs.instanceIds.indexOf latest.id) 0)
        (instFromResp latest) := by
  unfold mergeOne
  rw [if_pos h]
  exact ⟨rfl, rfl, rfl⟩

/-- C9 (witness): the in-place-update theorem at the concrete
one-instance cache. -/
theorem c9_merge_updates_in_place_witness :
    (mergeOne ⟨[⟨1, some "loading", none⟩], [0], [1]⟩ ⟨1, "running", none⟩).instanceRefs
      = [0] ∧
    (mergeOne ⟨[⟨1, some "loading", none⟩], [0], [1]⟩ ⟨1, "running", none⟩).instanceIds
      = [1] ∧
    (mergeOne ⟨[⟨1, some "loading", none⟩], [0], [1]⟩ ⟨1, "running", none⟩).store
      = [⟨1, some "loading", none⟩].set
          ([0].getD ([1].indexOf 1) 0) (instFromResp ⟨1, "running", none⟩) :=
  c9_merge_updates_in_place ⟨[⟨1, some "loading", none⟩], [0], [1]⟩
    ⟨1, "running", none⟩ (by decide)

/-- All-failures run of the retry wrapper: starting at attempt index
`k` with budget `r`, every level catches its `HTTPError`, sleeps, and
recurses, and the innermost bare `raise` re-raises the LAST attempt's
error after `r + 1` attempts and `r` sleeps. -/
theorem get_instances_retry_all_errors
    (attempt : Nat → Except String (List RespInst)) (e : Nat → String)
    (retry_delay_s : Nat)
    (hall : ∀ j, attempt j = Except.error (e j)) :
    ∀ (r k : Nat), get_instances_retry attempt retry_delay_s r k
      = (Except.error (e (k + r)), r + 1, r * retry_delay_s) := by
  intro r
  induction r with
  | zero =>
    intro k
    rw [get_instances_retry, hall k]
    simp
  | succ r ih =>
    intro k
    rw [get_instances_retry, hall k]
    simp only [ih (k + 1)]
    have h1 : k + 1 + r = k + (r + 1) := by omega
    have h2 : r * retry_delay_s + retry_delay_s = (r + 1) * retry_delay_s := by ring
    simp [h1, h2]

/-- Attempt-count bound of the retry wrapper: at most `r + 1` HTTP
attempts are ever made. -/
theorem get_instances_retry_attempts_le
    (attempt : Nat → Except String (List RespInst)) (retry_delay_s : Nat) :
    ∀ (r k : Nat), (get_instances_retry attempt retry_delay_s r k).2.1 ≤ r + 1 := by
  intro r
  induction r with
  | zero =>
    intro k
    rw [get_instances_retry]
    cases attempt k <;> simp
  | succ r ih =>
    intro k
    rw [get_instances_retry]
    cases attempt k with
    | ok resp => simp
    | error err =>
      have hih := ih (k + 1)
      simp
      omega

/-- C10: with initial retry budget `r`, `get_instances` makes at most
`r + 1` fetch attempts; and when every attempt raises `HTTPError`, it
sleeps `retry_delay_s` between attempts (`r` sleeps in total), makes
exactly `r + 1` attempts, and propagates the final `HTTPError`
unchanged to the caller. -/
theorem c10_retry_bound_and_propagation
    (attempt : Nat → Except String (List RespInst)) (e : Nat → String)
    (retry_delay_s retries : Nat) :
    (get_instances_retry attempt retry_delay_s retries 0).2.1 ≤ retries + 1 ∧
    ((∀ j, attempt j = Except.error (e j)) →
      get_instances_retry attempt retry_delay_s retries 0
        = (Except.error (e retries), retries + 1, retries * retry_delay_s)) := by
  constructor
  · exact get_instances_retry_attempts_le attempt retry_delay_s retries 0
  · intro hall
    have := get_instances_retry_all_errors attempt e retry_delay_s hall retries 0
    simpa using this

/-- C10 (witness): budget `2`, delay `5`, every attempt failing with
`HTTPError: 500` — three attempts, ten seconds slept, the error
propagated. -/
theorem c10_retry_bound_and_propagation_witness :
    (get_instances_retry (fun _ => Except.error "HTTPError: 500") 5 2 0).2.1 ≤ 3 ∧
    get_instances_retry (fun _ => Except.error "HTTPError: 500") 5 2 0
      = (Except.error "HTTPError: 500", 3, 10) :=
  ⟨(c10_retry_bound_and_propagation (fun _ => Except.error "HTTPError: 500")
      (fun _ => "HTTPError: 500") 5 2).1,
   (c10_retry_bound_and_propagation (fun _ => Except.error "HTTPError: 500")
      (fun _ => "HTTPError: 500") 5 2).2 (fun _ => rfl)⟩

end VastPython
